import Mathlib

/-!
Verification development for the maelbreaker crate: a shallow embedding of
its message types (`types.rs`), network layer (`network.rs`) and runtime
(`runtime.rs`), together with theorems about the behaviour of those
components.  Channels from `std::sync::mpsc` are modelled as explicit
buffers with liveness flags for the two halves; the `HashMap` callback
registry is modelled as an association list with unique keys; the three
runtime threads (reader, dispatcher, handler loop), which communicate over
FIFO channels, are modelled by one sequential recursion over the list of
input lines.
-/

deriving instance DecidableEq for Except

namespace Maelbreaker

/-- Message body from `types.rs`: optional `msg_id` and `in_reply_to`,
plus the flattened payload. -/
structure Body (P : Type) where
  msg_id : Option Nat
  in_reply_to : Option Nat
  payload : P
deriving DecidableEq, Repr

/-- Message envelope from `types.rs`: source, destination and body. -/
structure Message (P : Type) where
  src : String
  dest : String
  body : Body P
deriving DecidableEq, Repr

/-- Model of `Message::into_reply_with_id` from `types.rs`: swap `src` and `dest`,
set `in_reply_to` to the request's `msg_id`, use the given `msg_id`. -/
def Message.into_reply_with_id (m : Message P) (payload : P) (msg_id : Option Nat) :
    Message P :=
  { src := m.dest
    dest := m.src
    body :=
      { msg_id := msg_id
        in_reply_to := m.body.msg_id
        payload := payload } }

/-- Model of `Message::into_reply` from `types.rs`: the reply's `msg_id` is the
request's `msg_id` incremented by one when present, `none` otherwise. -/
def Message.into_reply (m : Message P) (payload : P) : Message P :=
  m.into_reply_with_id payload (m.body.msg_id.map (· + 1))

/-- The `Init` payload enum from `types.rs` (variants `Init` and `InitOk`). -/
inductive Init where
  | Init (node_id : String) (node_ids : List String)
  | InitOk
deriving DecidableEq, Repr

/-- State of one `std::sync::mpsc` channel: buffered messages plus
whether each half is still alive (not dropped). -/
structure ChanSt (P : Type) where
  buf : List (Message P)
  senderAlive : Bool
  receiverAlive : Bool
deriving DecidableEq, Repr

/-- State of a `Network` (`network.rs`): the callback registry
(`HashMap<usize, Sender>` modelled as an association list from `msg_id` to
channel index), the allocated channels, and the outbound queue (the
messages sent on the `outbound` channel, in order). -/
structure NetState (P : Type) where
  callbacks : List (Nat × Nat)
  chans : List (ChanSt P)
  outbound : List (Message P)
deriving DecidableEq, Repr

/-- Registry lookup (`HashMap::get`-style, first matching key). -/
def lookupCb : List (Nat × Nat) → Nat → Option Nat
  | [], _ => none
  | (k, v) :: rest, key => if k = key then some v else lookupCb rest key

/-- Registry insert (`HashMap::insert`: replaces the binding if the key is
present, otherwise adds it). -/
def insertCb : List (Nat × Nat) → Nat → Nat → List (Nat × Nat)
  | [], key, v => [(key, v)]
  | (k, w) :: rest, key, v =>
      if k = key then (key, v) :: rest else (k, w) :: insertCb rest key v

/-- Registry removal (`HashMap::remove`; on the association list this
drops every pair with the given key, which agrees with `HashMap` because
keys are unique in every reachable registry). -/
def removeCb (cbs : List (Nat × Nat)) (key : Nat) : List (Nat × Nat) :=
  cbs.filter (fun kv => kv.1 ≠ key)

/-- Read a channel state by index (out-of-range reads yield a dead,
empty channel; reachable code never reads out of range). -/
def getChan (chans : List (ChanSt P)) (i : Nat) : ChanSt P :=
  chans.getD i ⟨[], false, false⟩

/-- Update the channel state at an index. -/
def setChan : List (ChanSt P) → Nat → (ChanSt P → ChanSt P) → List (ChanSt P)
  | [], _, _ => []
  | c :: rest, 0, f => f c :: rest
  | c :: rest, i + 1, f => c :: setChan rest i f

/-- Model of `Network::new` from `network.rs`: empty registry, no channels, empty
outbound queue. -/
def newNetwork : NetState P :=
  { callbacks := [], chans := [], outbound := [] }

/-- Model of `Network::send` from `network.rs`: enqueue the message on the outbound
channel (whose receiver is held by the runtime, so the send succeeds). -/
def send (net : NetState P) (msg : Message P) : NetState P :=
  { net with outbound := net.outbound ++ [msg] }

/-- Model of `Network::rpc` from `network.rs`.  A fresh one-shot channel is created
first (`let (tx, rx) = channel()`); if the message has no `msg_id` the
call errors with both halves of the fresh channel dropped; otherwise
`callbacks.insert(msg_id, tx)` runs, and if it returns an old sender the
call errors (`duplicate message id use for rpc`) with the old sender and
the fresh receiver dropped; otherwise the message is sent and the fresh
receiver (its channel index) is returned. -/
def rpc (net : NetState P) (msg : Message P) : Except String Nat × NetState P :=
  let cid := net.chans.length
  match msg.body.msg_id with
  | none =>
      (Except.error "rpc must have msg_id",
        { net with chans := net.chans ++ [⟨[], false, false⟩] })
  | some msg_id =>
      match lookupCb net.callbacks msg_id with
      | some old =>
          (Except.error "duplicate message id use for rpc",
            { callbacks := insertCb net.callbacks msg_id cid
              chans := setChan (net.chans ++ [⟨[], true, false⟩]) old
                (fun c => { c with senderAlive := false })
              outbound := net.outbound })
      | none =>
          (Except.ok cid,
            send { callbacks := insertCb net.callbacks msg_id cid
                   chans := net.chans ++ [⟨[], true, true⟩]
                   outbound := net.outbound } msg)

/-- Model of `Network::check_callback` from `network.rs`: a message with no
`in_reply_to`, or whose `in_reply_to` is not registered, is returned to
the caller unchanged; otherwise the registry entry is removed and the
message is forwarded on the registered one-shot channel (consuming it),
unless that channel's receiver was dropped, in which case the message is
returned to the caller.  In either registered case the removed sender is
dropped when the call returns. -/
def check_callback (net : NetState P) (msg : Message P) :
    Option (Message P) × NetState P :=
  match msg.body.in_reply_to with
  | none => (some msg, net)
  | some replying_to =>
      match lookupCb net.callbacks replying_to with
      | none => (some msg, net)
      | some cid =>
          let callbacks := removeCb net.callbacks replying_to
          if (getChan net.chans cid).receiverAlive then
            (none,
              { net with
                  callbacks := callbacks
                  chans := setChan net.chans cid
                    (fun c => { c with buf := c.buf ++ [msg], senderAlive := false }) })
          else
            (some msg,
              { net with
                  callbacks := callbacks
                  chans := setChan net.chans cid
                    (fun c => { c with senderAlive := false }) })

/-- Result of `Receiver::recv` on a modelled channel. -/
inductive RecvRes (P : Type) where
  | msg (m : Message P)
  | blocked
  | closed
deriving DecidableEq, Repr

/-- Model of `Receiver::recv` on a modelled channel: yields the oldest buffered
message; on an empty buffer it blocks while the sender is alive and
reports the channel closed once the sender is dropped. -/
def recv (net : NetState P) (cid : Nat) : RecvRes P × NetState P :=
  match (getChan net.chans cid).buf with
  | m :: rest =>
      (RecvRes.msg m,
        { net with chans := setChan net.chans cid (fun c => { c with buf := rest }) })
  | [] =>
      if (getChan net.chans cid).senderAlive then (RecvRes.blocked, net)
      else (RecvRes.closed, net)

/-- The sentinel constant from `runtime.rs`: `const EOI: &str = "EOI";`. -/
def EOI : String := "EOI"

/-- The sentinel test performed by the reader loop in
`Runtime::process_input` (`if line == EOI`). -/
def isSentinel (line : String) : Bool := line == EOI

/-- An action a node takes on its `Network` while handling a message (or
during `from_init`): `Network::send` or `Network::rpc`. -/
inductive Act (P : Type) where
  | send (m : Message P)
  | rpc (m : Message P)

/-- Apply one network action. -/
def applyAct (net : NetState P) : Act P → NetState P
  | Act.send m => send net m
  | Act.rpc m => (rpc net m).2

/-- Apply a list of network actions in order. -/
def applyActs (net : NetState P) (acts : List (Act P)) : NetState P :=
  acts.foldl applyAct net

/-- Result of one `Node::handle_message` call: the node's next state, the
network actions it performed, and whether it returned `Ok`. -/
structure HandlerRes (P S : Type) where
  state : S
  acts : List (Act P)
  ok : Bool

/-- A model of a `Node` implementation (`node.rs`): `from_init` builds the
initial state (possibly acting on the network), `handle_message` handles
one inbound message. -/
structure NodeModel (P S : Type) where
  fromInit : String → List String → S × List (Act P)
  handle_message : S → Message P → HandlerRes P S

/-- Result of `Runtime::process_input`: final network and node state, the
messages delivered to `handle_message` in order, whether the handler loop
stopped on a handler error, and whether the reader thread panicked on an
unparseable line. -/
structure ProcResult (P S : Type) where
  net : NetState P
  state : S
  handled : List (Message P)
  handlerErr : Bool
  readerPanic : Bool
deriving DecidableEq, Repr

/-- Model of `Runtime::process_input` from `runtime.rs`, with the reader thread,
the `check_callback` dispatch and the handler loop (which communicate over
FIFO channels) serialised into one recursion over the input lines.  The
reader stops at the `EOI` sentinel or at end of input; each other line is
parsed (`serde_json::from_str(&line).unwrap()`, a failed parse panicking
the reader thread, after which the handler channel closes and the loop
ends); a parsed message goes through `Network::check_callback`, and if it
is returned it is delivered to `handle_message`; a handler error stops the
loop (`node.handle_message(message)?`). -/
def process_input (parse : String → Option (Message P)) (node : NodeModel P S) :
    NetState P → S → List String → ProcResult P S
  | net, s, [] => ⟨net, s, [], false, false⟩
  | net, s, line :: rest =>
    if isSentinel line then ⟨net, s, [], false, false⟩
    else
      match parse line with
      | none => ⟨net, s, [], false, true⟩
      | some message =>
          match check_callback net message with
          | (none, net1) => process_input parse node net1 s rest
          | (some m, net1) =>
              let r := node.handle_message s m
              let net2 := applyActs net1 r.acts
              if r.ok then
                let res := process_input parse node net2 r.state rest
                { res with handled := m :: res.handled }
              else ⟨net2, r.state, [m], true, false⟩

/-- What `Runtime::run_internal` writes and how it ends when the init
handshake succeeded: the `init_ok` reply is written first, then the
node's outbound messages in order; `run_internal` then reaches the
`todo!()` at its shutdown point and panics. -/
structure RunEnd (P S : Type) where
  initReply : Message Init
  outbound : List (Message P)
  proc : ProcResult P S
deriving DecidableEq, Repr

/-- Outcome of `Runtime::run_internal` from `runtime.rs`.  `initError`:
the function returns `Err` (no line, unparseable first line, or a first
message that is not `Init::Init`), so `Runtime::run` propagates the error
and the process exits non-zero.  `todoPanic`: input processing finished
(its error, if any, only logged), and control reached the `todo!()` that
stands where `Runtime::cleanup` is commented out, panicking the process.
The model has no clean-return constructor because `run_internal` has no
`Ok` path. -/
inductive RunResult (P S : Type) where
  | initError (e : String)
  | todoPanic (fin : RunEnd P S)
deriving DecidableEq, Repr

/-- Whether a run reached the shutdown `todo!()`. -/
def RunResult.reachesTodo : RunResult P S → Bool
  | RunResult.todoPanic _ => true
  | RunResult.initError _ => false

/-- Model of `Runtime::run_internal` from `runtime.rs`: receive the first line and
parse it as a `Message<Init>`; its payload must be `Init::Init`.  Build
the node with `from_init`, form the `init_ok` reply with `into_reply`,
process the remaining input, and end at the shutdown `todo!()`.  The
messages written to stdout are the reply followed by everything the node
sent on the network, in order. -/
def run_internal (parseInit : String → Option (Message Init))
    (parse : String → Option (Message P)) (node : NodeModel P S) :
    List String → RunResult P S
  | [] => RunResult.initError "recv on closed channel"
  | first :: rest =>
    match parseInit first with
    | none => RunResult.initError "init parse error"
    | some init =>
        match init.body.payload with
        | Init.InitOk => RunResult.initError "expected init as first message"
        | Init.Init node_id node_ids =>
            let st := node.fromInit node_id node_ids
            let net0 := applyActs newNetwork st.2
            let reply := init.into_reply Init.InitOk
            let proc := process_input parse node net0 st.1 rest
            RunResult.todoPanic ⟨reply, proc.net.outbound, proc⟩

/-- JSON values, as far as the wire format needs them. -/
inductive J where
  | null
  | num (n : Nat)
  | str (s : String)
  | arr (xs : List J)
  | obj (fields : List (String × J))

/-- First-match field lookup in a JSON object, as serde does for the
derived deserializers. -/
def jLookup : List (String × J) → String → Option J
  | [], _ => none
  | (k, v) :: rest, key => if k = key then some v else jLookup rest key

/-- Serialize an `Option<usize>` field: `None` becomes JSON `null` (the
`Body` fields carry no `skip_serializing_if`, so absent values are
emitted). -/
def optNum : Option Nat → J
  | none => J.null
  | some n => J.num n

/-- The serde serialization of the `Init` payload under the `payload!`
macro attributes `#[serde(tag = "type", rename_all = "snake_case")]`: an
internal `type` tag plus the variant's fields. -/
def serInit : Init → List (String × J)
  | Init.Init node_id node_ids =>
      [("type", J.str "init"), ("node_id", J.str node_id),
       ("node_ids", J.arr (node_ids.map J.str))]
  | Init.InitOk => [("type", J.str "init_ok")]

/-- The fields of a serialized `Body<Init>`: `msg_id`, `in_reply_to`,
then the `#[serde(flatten)]`ed payload fields. -/
def serBodyFields (b : Body Init) : List (String × J) :=
  [("msg_id", optNum b.msg_id), ("in_reply_to", optNum b.in_reply_to)] ++
    serInit b.payload

/-- Serialization of a `Body<Init>`. -/
def serBody (b : Body Init) : J := J.obj (serBodyFields b)

/-- Serialization of a `Message<Init>`. -/
def serMessage (m : Message Init) : J :=
  J.obj [("src", J.str m.src), ("dest", J.str m.dest), ("body", serBody m.body)]

/-- Deserialize an optional numeric field (serde accepts `null`, a number,
or an absent field for `Option<usize>`). -/
def deOptNum : Option J → Option (Option Nat)
  | none => some none
  | some J.null => some none
  | some (J.num n) => some (some n)
  | some _ => none

/-- Deserialize a JSON array of strings. -/
def deStrs : List J → Option (List String)
  | [] => some []
  | J.str s :: rest => (deStrs rest).map (s :: ·)
  | _ => none

/-- Deserialize the flattened, type-tagged `Init` payload from the body's
field list. -/
def deInit (fields : List (String × J)) : Option Init :=
  match jLookup fields "type" with
  | some (J.str "init") =>
      match jLookup fields "node_id", jLookup fields "node_ids" with
      | some (J.str nid), some (J.arr xs) => (deStrs xs).map (Init.Init nid)
      | _, _ => none
  | some (J.str "init_ok") => some Init.InitOk
  | _ => none

/-- Deserialize a `Body<Init>` from a JSON value. -/
def deBody : J → Option (Body Init)
  | J.obj fields =>
      match deOptNum (jLookup fields "msg_id"),
            deOptNum (jLookup fields "in_reply_to"), deInit fields with
      | some mid, some rto, some p => some ⟨mid, rto, p⟩
      | _, _, _ => none
  | _ => none

/-- Deserialize a `Message<Init>` from a JSON value. -/
def deMessage : J → Option (Message Init)
  | J.obj fields =>
      match jLookup fields "src", jLookup fields "dest", jLookup fields "body" with
      | some (J.str s), some (J.str d), some bj => (deBody bj).map (Message.mk s d)
      | _, _, _ => none
  | _ => none

/-- Looking up a key right after inserting it finds the inserted value. -/
theorem lookupCb_insert_self (cbs : List (Nat × Nat)) (k v : Nat) :
    lookupCb (insertCb cbs k v) k = some v := by
  induction cbs with
  | nil => simp [insertCb, lookupCb]
  | cons hd tl ih =>
      obtain ⟨a, b⟩ := hd
      by_cases h : a = k
      · simp [insertCb, h, lookupCb]
      · simp [insertCb, h, lookupCb, ih]

/-- Looking up a key right after removing it finds nothing. -/
theorem lookupCb_remove_self (cbs : List (Nat × Nat)) (k : Nat) :
    lookupCb (removeCb cbs k) k = none := by
  induction cbs with
  | nil => simp [removeCb, lookupCb]
  | cons hd tl ih =>
      obtain ⟨a, b⟩ := hd
      by_cases h : a = k
      · simpa [removeCb, List.filter, h] using ih
      · simpa [removeCb, List.filter, h, lookupCb] using ih

/-- Removing one key leaves the lookup of every other key unchanged. -/
theorem lookupCb_remove_other (cbs : List (Nat × Nat)) (k k' : Nat) (h : k' ≠ k) :
    lookupCb (removeCb cbs k) k' = lookupCb cbs k' := by
  induction cbs with
  | nil => simp [removeCb, lookupCb]
  | cons hd tl ih =>
      obtain ⟨a, b⟩ := hd
      by_cases ha : a = k
      · subst ha
        simpa [removeCb, List.filter, lookupCb, Ne.symm h] using ih
      · by_cases ha' : a = k'
        · subst ha'
          simp [removeCb, List.filter, ha, lookupCb, h]
        · simpa [removeCb, List.filter, ha, lookupCb, ha'] using ih

/-- Reading the slot just appended to the channel list. -/
theorem getChan_append_self (chans : List (ChanSt P)) (c : ChanSt P) :
    getChan (chans ++ [c]) chans.length = c := by
  induction chans with
  | nil => rfl
  | cons hd tl ih => simp [getChan, List.getD]

/-- Updating a slot does not change the number of channels. -/
theorem setChan_length (chans : List (ChanSt P)) (i : Nat) (f : ChanSt P → ChanSt P) :
    (setChan chans i f).length = chans.length := by
  induction chans generalizing i with
  | nil => rfl
  | cons hd tl ih => cases i <;> simp [setChan, ih]

/-- Reading an in-range slot after updating it. -/
theorem getChan_setChan_self (chans : List (ChanSt P)) (i : Nat) (f : ChanSt P → ChanSt P)
    (h : i < chans.length) :
    getChan (setChan chans i f) i = f (getChan chans i) := by
  induction chans generalizing i with
  | nil => simp at h
  | cons hd tl ih =>
      cases i with
      | zero => rfl
      | succ n =>
          have : n < tl.length := by simpa using h
          simpa [setChan, getChan, List.getD] using ih n this

/-- A channel update that does not touch the receiver flag leaves every
slot's receiver flag unchanged. -/
theorem getChan_setChan_receiver (chans : List (ChanSt P)) (i j : Nat)
    (f : ChanSt P → ChanSt P) (hf : ∀ c, (f c).receiverAlive = c.receiverAlive) :
    (getChan (setChan chans i f) j).receiverAlive = (getChan chans j).receiverAlive := by
  induction chans generalizing i j with
  | nil => cases i <;> rfl
  | cons hd tl ih =>
      cases i with
      | zero =>
          cases j with
          | zero => simpa [setChan, getChan, List.getD] using hf hd
          | succ n => simp [setChan, getChan, List.getD]
      | succ m =>
          cases j with
          | zero => simp [setChan, getChan, List.getD]
          | succ n => simpa [setChan, getChan, List.getD] using ih m n

/-- A live receiver flag can only be read from an in-range slot. -/
theorem lt_of_receiverAlive (chans : List (ChanSt P)) (cid : Nat)
    (h : (getChan chans cid).receiverAlive = true) : cid < chans.length := by
  by_contra h'
  push_neg at h'
  rw [getChan, List.getD_eq_default _ _ h'] at h
  simp at h

/-- A small concrete payload, after the `PingPong` payload used by the
crate's own network tests. -/
inductive PP where
  | ping (n : Nat)
  | pong (n : Nat)
deriving DecidableEq, Repr

/-- A node that does nothing: no init actions, every message handled
successfully with no network activity. -/
def quietNode : NodeModel PP Unit :=
  { fromInit := fun _ _ => ((), [])
    handle_message := fun _ _ => ⟨(), [], true⟩ }

/-- A quiet node over a counting state, used to instantiate generic
theorems. -/
def quietNodeNat : NodeModel PP Nat :=
  { fromInit := fun _ _ => (0, [])
    handle_message := fun s _ => ⟨s + 1, [], true⟩ }

/-- A parse function for scenarios whose input has no further payload
lines. -/
def noParse : String → Option (Message PP) := fun _ => none

/-- The init line of the init-only scenario, exactly as the spec gives
it. -/
def c1InitLine : String :=
  "\x7b\"src\":\"c1\",\"dest\":\"n1\",\"body\":\x7b\"msg_id\":1,\"in_reply_to\":null,\"type\":\"init\",\"node_id\":\"n1\",\"node_ids\":[\"n1\"]\x7d\x7d"

/-- The parsed form of `c1InitLine` (matching the crate's own
`test_deserialize_init`). -/
def c1InitMsg : Message Init :=
  ⟨"c1", "n1", ⟨some 1, none, Init.Init "n1" ["n1"]⟩⟩

/-- Serde on the init line of the scenario: the one line it accepts is
`c1InitLine`, read as `c1InitMsg`. -/
def c1ParseInit : String → Option (Message Init) :=
  fun l => if l = c1InitLine then some c1InitMsg else none

/-- The `init_ok` reply the code actually produces for `c1InitMsg`
(`init.into_reply(Init::InitOk)`). -/
def c1Reply : Message Init :=
  ⟨"n1", "c1", ⟨some 2, some 1, Init.InitOk⟩⟩

/-- Claim C5: for every received message and reply payload, `into_reply` swaps
source and destination, sets `in_reply_to` to the received `msg_id`, and
derives the new `msg_id` by incrementing the received one when present and
leaving it absent otherwise. -/
theorem into_reply_spec {P : Type} (m : Message P) (p : P) :
    (m.into_reply p).src = m.dest ∧
    (m.into_reply p).dest = m.src ∧
    (m.into_reply p).body.in_reply_to = m.body.msg_id ∧
    (∀ k, m.body.msg_id = some k → (m.into_reply p).body.msg_id = some (k + 1)) ∧
    (m.body.msg_id = none → (m.into_reply p).body.msg_id = none) := by
  refine ⟨rfl, rfl, rfl, ?_, ?_⟩
  · intro k hk
    simp [Message.into_reply, Message.into_reply_with_id, hk]
  · intro hk
    simp [Message.into_reply, Message.into_reply_with_id, hk]

/-- Witness for `into_reply_spec` at the concrete init message of the
init-only scenario. -/
theorem into_reply_spec_witness :
    (c1InitMsg.into_reply Init.InitOk).src = c1InitMsg.dest ∧
    (c1InitMsg.into_reply Init.InitOk).body.msg_id = some 2 :=
  ⟨(into_reply_spec c1InitMsg Init.InitOk).1,
   (into_reply_spec c1InitMsg Init.InitOk).2.2.2.1 1 rfl⟩

/-- A concrete ping message with the given `msg_id`. -/
def ppm (id n : Nat) : Message PP := ⟨"n1", "n2", ⟨some id, none, PP.ping n⟩⟩

/-- Claim C2 (amended): `rpc` errors exactly on a missing or already-registered
`msg_id`, and never enqueues the message on failure.  On a missing
`msg_id` the registry is unchanged, but on a duplicate the registry entry
is replaced by the fresh sender whose receiver is already dropped; on
success the entry for `msg_id` points at the fresh live channel and the
message is enqueued. -/
theorem rpc_spec {P : Type} (net : NetState P) (msg : Message P) :
    (msg.body.msg_id = none →
      (rpc net msg).1 = Except.error "rpc must have msg_id" ∧
      (rpc net msg).2.callbacks = net.callbacks ∧
      (rpc net msg).2.outbound = net.outbound) ∧
    (∀ k, msg.body.msg_id = some k → (lookupCb net.callbacks k).isSome →
      (rpc net msg).1 = Except.error "duplicate message id use for rpc" ∧
      (rpc net msg).2.outbound = net.outbound ∧
      lookupCb (rpc net msg).2.callbacks k = some net.chans.length ∧
      (getChan (rpc net msg).2.chans net.chans.length).receiverAlive = false) ∧
    (∀ k, msg.body.msg_id = some k → lookupCb net.callbacks k = none →
      (rpc net msg).1 = Except.ok net.chans.length ∧
      lookupCb (rpc net msg).2.callbacks k = some net.chans.length ∧
      (rpc net msg).2.outbound = net.outbound ++ [msg] ∧
      (getChan (rpc net msg).2.chans net.chans.length).receiverAlive = true) := by
  refine ⟨?_, ?_, ?_⟩
  · intro h
    simp [rpc, h]
  · intro k hk hsome
    obtain ⟨old, hold⟩ := Option.isSome_iff_exists.mp hsome
    refine ⟨?_, ?_, ?_, ?_⟩
    · simp [rpc, hk, hold]
    · simp [rpc, hk, hold]
    · simp [rpc, hk, hold, lookupCb_insert_self]
    · have hrec :
          (getChan
            (setChan (net.chans ++ [(⟨[], true, false⟩ : ChanSt P)]) old
              (fun c => { c with senderAlive := false })) net.chans.length).receiverAlive
          = (getChan (net.chans ++ [(⟨[], true, false⟩ : ChanSt P)])
              net.chans.length).receiverAlive :=
        getChan_setChan_receiver _ _ _ _ (fun _ => rfl)
      simp [rpc, hk, hold, hrec, getChan_append_self]
  · intro k hk hnone
    refine ⟨?_, ?_, ?_, ?_⟩
    · simp [rpc, hk, hnone]
    · simp [rpc, hk, hnone, send, lookupCb_insert_self]
    · simp [rpc, hk, hnone, send]
    · simp [rpc, hk, hnone, send, getChan_append_self]

/-- Witness for `rpc_spec`: the success case at a fresh network. -/
theorem rpc_spec_witness :
    (rpc (newNetwork : NetState PP) (ppm 1 0)).1 = Except.ok 0 ∧
    lookupCb (rpc (newNetwork : NetState PP) (ppm 1 0)).2.callbacks 1 = some 0 ∧
    (rpc (newNetwork : NetState PP) (ppm 1 0)).2.outbound =
      (newNetwork : NetState PP).outbound ++ [ppm 1 0] ∧
    (getChan (rpc (newNetwork : NetState PP) (ppm 1 0)).2.chans 0).receiverAlive = true :=
  (rpc_spec newNetwork (ppm 1 0)).2.2 1 rfl rfl

/-- Claim C2 counterexample: issuing a second `rpc` with the `msg_id` of a
pending one fails, but the callback registry is not left unchanged — the
entry for that `msg_id` now points at the new (dead-receiver) channel. -/
theorem rpc_duplicate_counterexample :
    (rpc (rpc (newNetwork : NetState PP) (ppm 1 0)).2 (ppm 1 1)).1 =
        Except.error "duplicate message id use for rpc" ∧
    (rpc (rpc (newNetwork : NetState PP) (ppm 1 0)).2 (ppm 1 1)).2.callbacks ≠
        (rpc (newNetwork : NetState PP) (ppm 1 0)).2.callbacks := by
  decide

/-- Claim C3: `check_callback` returns the message with the registry untouched
when `in_reply_to` is absent or unregistered; when `in_reply_to` is
registered it removes the entry, and forwards the message on the
registered channel (consuming it) when the receiver is still alive, or
returns it as a regular message (the entry staying removed) when the
receiver was dropped. -/
theorem check_callback_spec {P : Type} (net : NetState P) (msg : Message P) :
    (msg.body.in_reply_to = none → check_callback net msg = (some msg, net)) ∧
    (∀ k, msg.body.in_reply_to = some k → lookupCb net.callbacks k = none →
      check_callback net msg = (some msg, net)) ∧
    (∀ k cid, msg.body.in_reply_to = some k → lookupCb net.callbacks k = some cid →
      (getChan net.chans cid).receiverAlive = true →
      (check_callback net msg).1 = none ∧
      lookupCb (check_callback net msg).2.callbacks k = none ∧
      (getChan (check_callback net msg).2.chans cid).buf
        = (getChan net.chans cid).buf ++ [msg]) ∧
    (∀ k cid, msg.body.in_reply_to = some k → lookupCb net.callbacks k = some cid →
      (getChan net.chans cid).receiverAlive = false →
      (check_callback net msg).1 = some msg ∧
      lookupCb (check_callback net msg).2.callbacks k = none) := by
  refine ⟨?_, ?_, ?_, ?_⟩
  · intro h
    simp [check_callback, h]
  · intro k hk hnone
    simp [check_callback, hk, hnone]
  · intro k cid hk hsome halive
    have hlt := lt_of_receiverAlive net.chans cid halive
    refine ⟨?_, ?_, ?_⟩
    · simp [check_callback, hk, hsome, halive]
    · simp [check_callback, hk, hsome, halive, lookupCb_remove_self]
    · simp [check_callback, hk, hsome, halive, getChan_setChan_self _ _ _ hlt]
  · intro k cid hk hsome hdead
    refine ⟨?_, ?_⟩
    · simp [check_callback, hk, hsome, hdead]
    · simp [check_callback, hk, hsome, hdead, lookupCb_remove_self]

/-- A reply to the RPC registered by `rpc newNetwork (ppm 1 0)`. -/
def cbReply : Message PP := ⟨"n2", "n1", ⟨some 9, some 1, PP.pong 0⟩⟩

/-- Witness for `check_callback_spec`: the registered, live-receiver case
right after a successful `rpc`. -/
theorem check_callback_spec_witness :
    (check_callback (rpc (newNetwork : NetState PP) (ppm 1 0)).2 cbReply).1 = none ∧
    lookupCb (check_callback (rpc (newNetwork : NetState PP) (ppm 1 0)).2
      cbReply).2.callbacks 1 = none ∧
    (getChan (check_callback (rpc (newNetwork : NetState PP) (ppm 1 0)).2
      cbReply).2.chans 0).buf
      = (getChan (rpc (newNetwork : NetState PP) (ppm 1 0)).2.chans 0).buf ++ [cbReply] :=
  (check_callback_spec (rpc (newNetwork : NetState PP) (ppm 1 0)).2 cbReply).2.2.1
    1 0 rfl rfl rfl

/-- Claim C4: after a successful `rpc` registration of `msg_id = k`, a reply
with `in_reply_to = k` is consumed by `check_callback`; the receiver
returned by `rpc` yields exactly that reply and is then closed; the
registry no longer contains `k`; and a later message with
`in_reply_to = k` is returned as a regular message with the network
unchanged. -/
theorem rpc_roundtrip {P : Type} (net : NetState P) (msg reply later : Message P)
    (k : Nat)
    (hk : msg.body.msg_id = some k)
    (hnew : lookupCb net.callbacks k = none)
    (hreply : reply.body.in_reply_to = some k)
    (hlater : later.body.in_reply_to = some k) :
    (rpc net msg).1 = Except.ok net.chans.length ∧
    (check_callback (rpc net msg).2 reply).1 = none ∧
    (recv (check_callback (rpc net msg).2 reply).2 net.chans.length).1
      = RecvRes.msg reply ∧
    (recv (recv (check_callback (rpc net msg).2 reply).2 net.chans.length).2
      net.chans.length).1 = RecvRes.closed ∧
    lookupCb (check_callback (rpc net msg).2 reply).2.callbacks k = none ∧
    check_callback (check_callback (rpc net msg).2 reply).2 later
      = (some later, (check_callback (rpc net msg).2 reply).2) := by
  have e1 : rpc net msg =
      (Except.ok net.chans.length,
        (⟨insertCb net.callbacks k net.chans.length,
          net.chans ++ [⟨[], true, true⟩],
          net.outbound ++ [msg]⟩ : NetState P)) := by
    simp [rpc, hk, hnew, send]
  have hlt1 : net.chans.length < (net.chans ++ [(⟨[], true, true⟩ : ChanSt P)]).length := by
    simp
  have hga : getChan (net.chans ++ [(⟨[], true, true⟩ : ChanSt P)]) net.chans.length
      = ⟨[], true, true⟩ := getChan_append_self net.chans _
  have e2 : check_callback (rpc net msg).2 reply =
      (none,
        (⟨removeCb (insertCb net.callbacks k net.chans.length) k,
          setChan (net.chans ++ [⟨[], true, true⟩]) net.chans.length
            (fun c => { c with buf := c.buf ++ [reply], senderAlive := false }),
          net.outbound ++ [msg]⟩ : NetState P)) := by
    rw [e1]
    simp [check_callback, hreply, lookupCb_insert_self, hga]
  have hg2 : getChan
      (setChan (net.chans ++ [(⟨[], true, true⟩ : ChanSt P)]) net.chans.length
        (fun c => { c with buf := c.buf ++ [reply], senderAlive := false }))
      net.chans.length = ⟨[reply], false, true⟩ := by
    rw [getChan_setChan_self _ _ _ hlt1, hga]
    rfl
  have e3 : recv (check_callback (rpc net msg).2 reply).2 net.chans.length =
      (RecvRes.msg reply,
        (⟨removeCb (insertCb net.callbacks k net.chans.length) k,
          setChan
            (setChan (net.chans ++ [⟨[], true, true⟩]) net.chans.length
              (fun c => { c with buf := c.buf ++ [reply], senderAlive := false }))
            net.chans.length (fun c => { c with buf := [] }),
          net.outbound ++ [msg]⟩ : NetState P)) := by
    rw [e2]
    simp [recv, hg2]
  have hlt2 : net.chans.length <
      (setChan (net.chans ++ [(⟨[], true, true⟩ : ChanSt P)]) net.chans.length
        (fun c => { c with buf := c.buf ++ [reply], senderAlive := false })).length := by
    rw [setChan_length]
    simp
  have hg3 : getChan
      (setChan
        (setChan (net.chans ++ [(⟨[], true, true⟩ : ChanSt P)]) net.chans.length
          (fun c => { c with buf := c.buf ++ [reply], senderAlive := false }))
        net.chans.length (fun c => { c with buf := [] }))
      net.chans.length = ⟨[], false, true⟩ := by
    rw [getChan_setChan_self _ _ _ hlt2, hg2]
  refine ⟨by rw [e1], by rw [e2], by rw [e3], ?_, ?_, ?_⟩
  · rw [e3]
    simp [recv, hg3]
  · rw [e2]
    simp [lookupCb_remove_self]
  · rw [e2]
    simp [check_callback, hlater, lookupCb_remove_self]

/-- Witness for `rpc_roundtrip`: the crate's own `test_rpc` scenario,
`msg_id = 7`, on a fresh network. -/
theorem rpc_roundtrip_witness :
    (rpc (newNetwork : NetState PP) (ppm 7 0)).1 = Except.ok 0 ∧
    (check_callback (rpc (newNetwork : NetState PP) (ppm 7 0)).2
      ⟨"n2", "n1", ⟨some 1, some 7, PP.pong 0⟩⟩).1 = none ∧
    (recv (check_callback (rpc (newNetwork : NetState PP) (ppm 7 0)).2
      ⟨"n2", "n1", ⟨some 1, some 7, PP.pong 0⟩⟩).2 0).1
      = RecvRes.msg ⟨"n2", "n1", ⟨some 1, some 7, PP.pong 0⟩⟩ ∧
    (recv (recv (check_callback (rpc (newNetwork : NetState PP) (ppm 7 0)).2
      ⟨"n2", "n1", ⟨some 1, some 7, PP.pong 0⟩⟩).2 0).2 0).1 = RecvRes.closed ∧
    lookupCb (check_callback (rpc (newNetwork : NetState PP) (ppm 7 0)).2
      ⟨"n2", "n1", ⟨some 1, some 7, PP.pong 0⟩⟩).2.callbacks 7 = none ∧
    check_callback (check_callback (rpc (newNetwork : NetState PP) (ppm 7 0)).2
      ⟨"n2", "n1", ⟨some 1, some 7, PP.pong 0⟩⟩).2
      ⟨"n2", "n1", ⟨some 2, some 7, PP.pong 9⟩⟩
      = (some ⟨"n2", "n1", ⟨some 2, some 7, PP.pong 9⟩⟩,
         (check_callback (rpc (newNetwork : NetState PP) (ppm 7 0)).2
           ⟨"n2", "n1", ⟨some 1, some 7, PP.pong 0⟩⟩).2) :=
  rpc_roundtrip newNetwork (ppm 7 0) ⟨"n2", "n1", ⟨some 1, some 7, PP.pong 0⟩⟩
    ⟨"n2", "n1", ⟨some 2, some 7, PP.pong 9⟩⟩ 7 rfl rfl rfl rfl

/-- Deserializing a serialized list of strings gives the list back. -/
theorem deStrs_map_str (xs : List String) : deStrs (xs.map J.str) = some xs := by
  induction xs with
  | nil => rfl
  | cons hd tl ih => simp [deStrs, ih]

/-- Claim C9: serializing a `Message<Init>` and deserializing it gives the
message back; absent `msg_id` and `in_reply_to` are emitted as JSON
`null`; and the payload is flattened into the body object with its
`type` tag. -/
theorem serde_roundtrip (m : Message Init) :
    deMessage (serMessage m) = some m ∧
    (m.body.msg_id = none → jLookup (serBodyFields m.body) "msg_id" = some J.null) ∧
    (m.body.in_reply_to = none →
      jLookup (serBodyFields m.body) "in_reply_to" = some J.null) ∧
    (∀ nid nids, m.body.payload = Init.Init nid nids →
      jLookup (serBodyFields m.body) "type" = some (J.str "init") ∧
      jLookup (serBodyFields m.body) "node_id" = some (J.str nid) ∧
      jLookup (serBodyFields m.body) "node_ids" = some (J.arr (nids.map J.str))) ∧
    (m.body.payload = Init.InitOk →
      jLookup (serBodyFields m.body) "type" = some (J.str "init_ok")) := by
  obtain ⟨s, d, mid, rto, p⟩ := m
  refine ⟨?_, ?_, ?_, ?_, ?_⟩
  · cases p with
    | Init nid nids =>
        simp [serMessage, serBody, serBodyFields, serInit, deMessage, jLookup,
          deBody, deOptNum, deInit, deStrs_map_str, optNum]
        cases mid <;> cases rto <;> simp [optNum, deOptNum]
    | InitOk =>
        simp [serMessage, serBody, serBodyFields, serInit, deMessage, jLookup,
          deBody, deOptNum, deInit, optNum]
        cases mid <;> cases rto <;> simp [optNum, deOptNum]
  · intro h
    have h' : mid = none := h
    cases p <;> simp [serBodyFields, jLookup, h', optNum]
  · intro h
    have h' : rto = none := h
    cases p <;> simp [serBodyFields, jLookup, h', optNum]
  · intro nid nids hp
    subst hp
    exact ⟨by simp [serBodyFields, serInit, jLookup],
           by simp [serBodyFields, serInit, jLookup],
           by simp [serBodyFields, serInit, jLookup]⟩
  · intro hp
    subst hp
    simp [serBodyFields, serInit, jLookup]

/-- Witness-style instance of `serde_roundtrip` at the init message of the
init-only scenario. -/
theorem serde_roundtrip_witness :
    deMessage (serMessage c1InitMsg) = some c1InitMsg ∧
    jLookup (serBodyFields c1InitMsg.body) "in_reply_to" = some J.null :=
  ⟨(serde_roundtrip c1InitMsg).1, (serde_roundtrip c1InitMsg).2.2.1 rfl⟩

/-- Input processing stops at the first sentinel line: every line after it
is ignored entirely. -/
theorem process_input_sentinel {P S : Type} (parse : String → Option (Message P))
    (node : NodeModel P S) :
    ∀ (pre : List String) (net : NetState P) (s : S) (post : List String),
      process_input parse node net s (pre ++ EOI :: post)
        = process_input parse node net s (pre ++ [EOI]) := by
  intro pre
  induction pre with
  | nil =>
      intro net s post
      simp [process_input, isSentinel]
  | cons l tl ih =>
      intro net s post
      by_cases hs : isSentinel l
      · simp [process_input, hs]
      · simp only [List.cons_append, process_input, hs, Bool.false_eq_true, if_false]
        cases hp : parse l with
        | none => rfl
        | some message =>
            rcases hc : check_callback net message with ⟨o, net1⟩
            cases o with
            | none => simp [ih]
            | some m => simp [ih]

/-- Claim C10 counterexample: the sentinel constant is the three-character
string `EOI`, not a four-character line. -/
theorem sentinel_counterexample :
    isSentinel EOI = true ∧ EOI.length = 3 ∧ EOI.length ≠ 4 := by
  decide

/-- Claim C10 (amended): a line consisting exactly of the three characters
`EOI` is the sentinel; the reader stops there, so no line after the first
sentinel is parsed or delivered, and a run whose next line is the
sentinel delivers nothing further. -/
theorem sentinel_spec {P S : Type} (parse : String → Option (Message P))
    (node : NodeModel P S) (net : NetState P) (s : S)
    (pre post : List String) (line : String) :
    EOI = "EOI" ∧ EOI.length = 3 ∧
    (isSentinel line = true ↔ line = EOI) ∧
    process_input parse node net s (pre ++ EOI :: post)
      = process_input parse node net s (pre ++ [EOI]) ∧
    process_input parse node net s (EOI :: post) = ⟨net, s, [], false, false⟩ := by
  refine ⟨rfl, rfl, ?_, process_input_sentinel parse node pre net s post, ?_⟩
  · simp [isSentinel]
  · simp [process_input, isSentinel]

/-- A node whose handler always fails. -/
def failNode : NodeModel PP Unit :=
  { fromInit := fun _ _ => ((), [])
    handle_message := fun _ _ => ⟨(), [], false⟩ }

/-- First plain inbound message of the handler-error scenario. -/
def pm1 : Message PP := ⟨"c1", "n1", ⟨some 1, none, PP.ping 1⟩⟩

/-- Second plain inbound message of the handler-error scenario. -/
def pm2 : Message PP := ⟨"c1", "n1", ⟨some 2, none, PP.ping 2⟩⟩

/-- Serde on the lines of the handler-error scenario. -/
def c7Parse : String → Option (Message PP) := fun l =>
  if l = "m1" then some pm1 else if l = "m2" then some pm2 else none

/-- Claim C7 counterexample: when the handler fails on the first message, the
second queued message is never delivered to `handle_message`. -/
theorem handler_error_counterexample :
    (process_input c7Parse failNode newNetwork () ["m1", "m2", "EOI"]).handled = [pm1] ∧
    pm2 ∉ (process_input c7Parse failNode newNetwork () ["m1", "m2", "EOI"]).handled ∧
    (process_input c7Parse failNode newNetwork () ["m1", "m2", "EOI"]).handlerErr = true := by
  decide

/-- Claim C7 (amended): a handler error stops the handler loop — the failing
message is the last one delivered, whatever input remains — and the
failure is recorded (run_internal then only logs it). -/
theorem handler_error_stops {P S : Type} (parse : String → Option (Message P))
    (node : NodeModel P S) (net : NetState P) (s : S) (line : String)
    (rest : List String) (m : Message P)
    (hs : isSentinel line = false)
    (hp : parse line = some m)
    (hr : m.body.in_reply_to = none)
    (hok : (node.handle_message s m).ok = false) :
    process_input parse node net s (line :: rest)
      = ⟨applyActs net (node.handle_message s m).acts,
         (node.handle_message s m).state, [m], true, false⟩ := by
  simp [process_input, hs, check_callback, hp, hr, hok]

/-- Witness for `handler_error_stops` on the concrete scenario, with a
further line pending after the failing message. -/
theorem handler_error_stops_witness :
    process_input c7Parse failNode newNetwork () ["m1", "m2", "EOI"]
      = ⟨applyActs newNetwork (failNode.handle_message () pm1).acts,
         (failNode.handle_message () pm1).state, [pm1], true, false⟩ :=
  handler_error_stops c7Parse failNode newNetwork () "m1" ["m2", "EOI"] pm1
    (by decide) (by decide) rfl rfl

/-- Claim C1 counterexample: in the init-only scenario the one message written
is `c1Reply`, whose body's `msg_id` is `2`, not `null`. -/
theorem init_only_counterexample :
    run_internal c1ParseInit noParse quietNode [c1InitLine, EOI]
      = RunResult.todoPanic ⟨c1Reply, [], ⟨newNetwork, (), [], false, false⟩⟩ ∧
    c1Reply.body.msg_id ≠ none := by
  decide

/-- Claim C1 (amended): for any node that performs no network actions during
init, the init-only scenario writes exactly one message: src `n1`, dest
`c1`, body with `msg_id` 2, `in_reply_to` 1 and payload `init_ok`. -/
theorem init_only_spec {P S : Type} (parse : String → Option (Message P))
    (node : NodeModel P S) (s0 : S)
    (hinit : node.fromInit "n1" ["n1"] = (s0, [])) :
    run_internal c1ParseInit parse node [c1InitLine, EOI]
      = RunResult.todoPanic ⟨c1Reply, [], ⟨newNetwork, s0, [], false, false⟩⟩ := by
  simp [run_internal, c1ParseInit, c1InitMsg, hinit, process_input, isSentinel,
    applyActs, Message.into_reply, Message.into_reply_with_id, c1Reply, newNetwork]

/-- Witness for `init_only_spec` at a concrete quiet node. -/
theorem init_only_spec_witness :
    run_internal c1ParseInit noParse quietNodeNat [c1InitLine, EOI]
      = RunResult.todoPanic ⟨c1Reply, [], ⟨newNetwork, 0, [], false, false⟩⟩ :=
  init_only_spec noParse quietNodeNat 0 rfl

/-- Claim C6: after a successful init handshake, reaching end of input does not
make `run_internal` return `Ok` — the model (like the source, whose
shutdown path is `todo!()` with `Runtime::cleanup` commented out) has no
clean-exit outcome: every run either fails init or reaches the shutdown
`todo!()` and panics.  The concrete conjunct evaluates the clean-EOF
scenario. -/
theorem run_reaches_todo :
    run_internal c1ParseInit noParse quietNode [c1InitLine]
      = RunResult.todoPanic ⟨c1Reply, [], ⟨newNetwork, (), [], false, false⟩⟩ ∧
    ∀ (Q T : Type) (pI : String → Option (Message Init))
      (p : String → Option (Message Q)) (node : NodeModel Q T) (lines : List String),
      (run_internal pI p node lines).reachesTodo = true ∨
      ∃ e, run_internal pI p node lines = RunResult.initError e := by
  constructor
  · decide
  · intro Q T pI p node lines
    cases lines with
    | nil => exact Or.inr ⟨_, rfl⟩
    | cons first rest =>
        cases hpi : pI first with
        | none => exact Or.inr ⟨"init parse error", by simp [run_internal, hpi]⟩
        | some init =>
            cases hpl : init.body.payload with
            | Init nid nids =>
                exact Or.inl (by simp [run_internal, hpi, hpl, RunResult.reachesTodo])
            | InitOk =>
                exact Or.inr ⟨"expected init as first message",
                  by simp [run_internal, hpi, hpl]⟩

/-- The function `check_callback` only ever returns the very message it was given. -/
theorem check_callback_ret {P : Type} (net : NetState P) (msg m : Message P)
    (net1 : NetState P) (h : check_callback net msg = (some m, net1)) : m = msg := by
  unfold check_callback at h
  split at h
  · simp only [Prod.mk.injEq, Option.some.injEq] at h
    exact h.1.symm
  · split at h
    · simp only [Prod.mk.injEq, Option.some.injEq] at h
      exact h.1.symm
    · split at h
      · simp at h
      · simp only [Prod.mk.injEq, Option.some.injEq] at h
        exact h.1.symm

/-- Spec-side trace for the delivery-order claim, following the spec's
words: each message parsed from the lines before the sentinel, in arrival
order, marked `true` when `check_callback` consumes it as an RPC reply
and `false` when it goes to the handler. -/
def deliveryTrace (parse : String → Option (Message P)) (node : NodeModel P S) :
    NetState P → S → List String → List (Message P × Bool)
  | _, _, [] => []
  | net, s, line :: rest =>
    if isSentinel line then []
    else
      match parse line with
      | none => []
      | some message =>
          match check_callback net message with
          | (none, net1) => (message, true) :: deliveryTrace parse node net1 s rest
          | (some m, net1) =>
              let r := node.handle_message s m
              (m, false) :: deliveryTrace parse node (applyActs net1 r.acts) r.state rest

/-- Claim C8: when every line before the sentinel parses and the handler never
fails, the messages passed to `handle_message` are exactly, in order, the
parsed messages not consumed by `check_callback`, and they form an
order-preserving sublist of the parsed input — nothing is dropped or
reordered. -/
theorem delivery_order {P S : Type} (parse : String → Option (Message P))
    (node : NodeModel P S) (net : NetState P) (s : S) (lines : List String)
    (hok : ∀ (st : S) (m : Message P), (node.handle_message st m).ok = true)
    (hparse : ∀ l ∈ lines.takeWhile (fun l => !(isSentinel l)), (parse l).isSome) :
    (process_input parse node net s lines).handled
      = ((deliveryTrace parse node net s lines).filter (fun x => !x.2)).map Prod.fst ∧
    (deliveryTrace parse node net s lines).map Prod.fst
      = (lines.takeWhile (fun l => !(isSentinel l))).filterMap parse ∧
    (process_input parse node net s lines).handled.Sublist
      ((deliveryTrace parse node net s lines).map Prod.fst) := by
  induction lines generalizing net s with
  | nil => simp [process_input, deliveryTrace]
  | cons l rest ih =>
      by_cases hs : isSentinel l = true
      · simp [process_input, deliveryTrace, hs, List.takeWhile_cons_of_neg]
      · have hsf : isSentinel l = false := by
          exact Bool.not_eq_true _ ▸ eq_false_of_ne_true hs
        have htw : (l :: rest).takeWhile (fun l => !(isSentinel l))
            = l :: rest.takeWhile (fun l => !(isSentinel l)) := by
          simp [List.takeWhile_cons_of_pos, hsf]
        have hl : (parse l).isSome := by
          apply hparse
          rw [htw]
          exact List.mem_cons_self l _
        obtain ⟨message, hp⟩ := Option.isSome_iff_exists.mp hl
        have hparse' :
            ∀ x ∈ rest.takeWhile (fun l => !(isSentinel l)), (parse x).isSome := by
          intro x hx
          apply hparse
          rw [htw]
          exact List.mem_cons_of_mem l hx
        rcases hc : check_callback net message with ⟨o, net1⟩
        cases o with
        | none =>
            obtain ⟨ih1, ih2, ih3⟩ := ih net1 s hparse'
            refine ⟨?_, ?_, ?_⟩
            · simp [process_input, deliveryTrace, hsf, hp, hc, ih1]
            · simp [deliveryTrace, hsf, hp, hc, htw, List.filterMap_cons, ih2]
            · simp only [process_input, deliveryTrace, hsf, hp, hc, Bool.false_eq_true,
                if_false, List.map_cons]
              exact ih3.cons message
        | some m =>
            have hm : m = message := check_callback_ret net message m net1 hc
            subst hm
            obtain ⟨ih1, ih2, ih3⟩ :=
              ih (applyActs net1 (node.handle_message s m).acts)
                (node.handle_message s m).state hparse'
            refine ⟨?_, ?_, ?_⟩
            · simp [process_input, deliveryTrace, hsf, hp, hc, hok, ih1]
            · simp [deliveryTrace, hsf, hp, hc, htw, List.filterMap_cons, ih2]
            · simp only [process_input, deliveryTrace, hsf, hp, hc, hok,
                Bool.false_eq_true, if_false, if_true, List.map_cons]
              exact ih3.cons₂ m

/-- Node of the delivery-order witness scenario: handling `ping 1` issues
an RPC with `msg_id` 5, everything else is handled with no actions; the
handler always succeeds. -/
def c8Node : NodeModel PP Nat :=
  { fromInit := fun _ _ => (0, [])
    handle_message := fun s m =>
      ⟨s + 1,
        match m.body.payload with
        | PP.ping 1 => [Act.rpc ⟨"n1", "n2", ⟨some 5, none, PP.ping 99⟩⟩]
        | _ => [],
        true⟩ }

/-- Serde on the lines of the delivery-order witness scenario: `a` is a
plain ping (which triggers the RPC), `b` is the RPC reply
(`in_reply_to = 5`), `c` is another plain ping. -/
def c8Parse : String → Option (Message PP) := fun l =>
  if l = "a" then some ⟨"c1", "n1", ⟨some 1, none, PP.ping 1⟩⟩
  else if l = "b" then some ⟨"n2", "n1", ⟨some 1, some 5, PP.pong 99⟩⟩
  else if l = "c" then some ⟨"c1", "n1", ⟨some 3, none, PP.ping 3⟩⟩
  else none

/-- Witness for `delivery_order`: in the concrete scenario the RPC reply
`b` is consumed and the two pings are delivered in order. -/
theorem delivery_order_witness :
    ((process_input c8Parse c8Node newNetwork 0 ["a", "b", "c", "EOI"]).handled
      = ((deliveryTrace c8Parse c8Node newNetwork 0 ["a", "b", "c", "EOI"]).filter
          (fun x => !x.2)).map Prod.fst ∧
     (process_input c8Parse c8Node newNetwork 0 ["a", "b", "c", "EOI"]).handled.Sublist
      ((deliveryTrace c8Parse c8Node newNetwork 0 ["a", "b", "c", "EOI"]).map
        Prod.fst)) ∧
    (process_input c8Parse c8Node newNetwork 0 ["a", "b", "c", "EOI"]).handled
      = [⟨"c1", "n1", ⟨some 1, none, PP.ping 1⟩⟩, ⟨"c1", "n1", ⟨some 3, none, PP.ping 3⟩⟩] :=
  ⟨⟨(delivery_order c8Parse c8Node newNetwork 0 ["a", "b", "c", "EOI"]
      (fun _ _ => rfl) (by decide)).1,
    (delivery_order c8Parse c8Node newNetwork 0 ["a", "b", "c", "EOI"]
      (fun _ _ => rfl) (by decide)).2.2⟩,
   by decide⟩

end Maelbreaker
